import Mathlib

/-!
# Application lifecycle of the web server

A shallow embedding of `web-server/internal/application/application.go`:
the `Application` struct, the factory `Build`, the blocking entry point
`Start` and the teardown `close`.

The Go code is a sequence of calls into collaborators (the pool provisioner,
the handler constructor, the logger, `http.ListenAndServe`, `pgxpool.Pool.Close`).
The embedding keeps the values the code computes and records every such call,
in program order, in a trace of effects.  Collaborators whose code is outside
this file are parameters of the definitions.  A call into a library (`log`,
`http.ListenAndServe`, `pgxpool.Pool.Close`) is an event of the trace.  The logger and
the listener are taken to return.  `pgxpool.Pool.Close` returns on a pool and panics on
the nil pointer, which it dereferences; the panic unwinds `close` and `Start`.
-/

namespace application

/-! ## Data model -/

/-- A Go value of type `*pgxpool.Pool`: `none` is the nil pointer, `some n` the pool at address `n`. -/
abbrev PoolRef := Option Nat

/-- A Go value of type `*kafka.Writer`: `none` is the nil pointer. -/
abbrev WriterRef := Option Nat

/-- A Go value of interface type `http.Handler`: `none` is the nil interface. -/
abbrev Handler := Option Nat

/-- A Go value of interface type `error`: `none` is nil. -/
abbrev GoError := Option String

/-- The struct `Application` (lines 17-22). -/
structure Application where
  pool : PoolRef
  producer : WriterRef
  handler : Handler
  addr : String
  deriving DecidableEq, Repr

/-- The part of `configuration.Settings.Application` that `Build` reads. -/
structure ApplicationSettings where
  Port : Int
  deriving DecidableEq, Repr

/-- Modelled from the spec: the type `configuration.Settings` is declared outside this file.
It supplies a numeric port, database connection parameters (`Database`, of a type `DB` left
abstract) and whatever else the configuration holds, such as message-queue and search-service
endpoints (`Rest`, of a type left abstract). -/
structure Settings (DB Rest : Type) where
  Application : ApplicationSettings
  Database : DB
  Rest : Rest

/-- The struct `routes.Env` as `Build` fills it: the only field it sets is `Pool`. -/
structure Env where
  Pool : PoolRef
  deriving DecidableEq, Repr

/-! ## Formatting -/

/-- The verb `%d` of `fmt.Sprintf` on an integer: base 10, a leading `-` when negative. -/
def formatInt (n : Int) : String :=
  if n < 0 then "-" ++ String.mk (Nat.toDigits 10 n.natAbs)
  else String.mk (Nat.toDigits 10 n.natAbs)

/-! ## Effects -/

/-- The calls `Build` makes into its collaborators. -/
inductive BuildEvent (DB Rest : Type) where
  | getDbConnectionPool (database : DB)
  | createHandler (settings : Settings DB Rest) (env : Env)

/-- Is the event a call of `GetDbConnectionPool`. -/
def BuildEvent.isProvision {DB Rest : Type} : BuildEvent DB Rest → Bool
  | .getDbConnectionPool _ => true
  | _ => false

/-- Is the event a call of `routes.CreateHandler`. -/
def BuildEvent.isCreateHandler {DB Rest : Type} : BuildEvent DB Rest → Bool
  | .createHandler _ _ => true
  | _ => false

/-- The calls `Start` and `close` can make into the libraries.  `listenAndServe` stands for one
completed call of `http.ListenAndServe`, from invocation to return, with the value it returned.
`producerClose` is a call of `kafka.Writer.Close`. -/
inductive Event where
  | logInfo (msg : String)
  | listenAndServe (addr : String) (handler : Handler) (returned : GoError)
  | poolClose (pool : PoolRef)
  | producerClose (producer : WriterRef)
  deriving DecidableEq, Repr

/-- Is the event a call of `pgxpool.Pool.Close`. -/
def Event.isPoolClose : Event → Bool
  | .poolClose _ => true
  | _ => false

/-- Is the event a call of `kafka.Writer.Close`. -/
def Event.isProducerClose : Event → Bool
  | .producerClose _ => true
  | _ => false

/-- Is the event a call of `http.ListenAndServe`. -/
def Event.isListen : Event → Bool
  | .listenAndServe _ _ _ => true
  | _ => false

/-! ## Collaborators -/

/-- Why a call did not return: the message of the panic or of the fatal exit. -/
abbrev Failure := String

/-- The two functions of the repository that `Build` calls and that live outside this file.

`GetDbConnectionPool` has the single Go result `*pgxpool.Pool`, so it has no error value to
hand back: a failed provisioning is a call that does not return (a panic, or a fatal log that
ends the process), written `Except.error`.  `CreateHandler` is `routes.CreateHandler`. -/
structure Collaborators (DB Rest : Type) where
  GetDbConnectionPool : DB → Except Failure PoolRef
  CreateHandler : Settings DB Rest → Env → Handler

/-- The listener `http.ListenAndServe`, an arbitrary function of the address and the handler
to the error it eventually returns (nil included). -/
structure Runtime where
  ListenAndServe : String → Handler → GoError

/-! ## The program -/

/-- The outcome of `Build`: the calls made, and the `Application` returned, or the failure that
unwound `Build` before it could return. -/
structure BuildResult (DB Rest : Type) where
  trace : List (BuildEvent DB Rest)
  result : Except Failure Application

/-- The function `Build` (lines 24-39).  The composite literal leaves `producer` out, so the
field has its zero value, nil. -/
def Build {DB Rest : Type} (c : Collaborators DB Rest) (settings : Settings DB Rest) :
    BuildResult DB Rest :=
  let port := settings.Application.Port
  let addr := ":" ++ formatInt port
  match c.GetDbConnectionPool settings.Database with
  | .error e =>
      { trace := [.getDbConnectionPool settings.Database], result := .error e }
  | .ok pool =>
      let env : Env := { Pool := pool }
      let handler := c.CreateHandler settings env
      { trace := [.getDbConnectionPool settings.Database, .createHandler settings env]
        result := .ok { addr := addr, pool := pool, handler := handler, producer := none } }

/-- How a Go call ends: it returns a value, or a panic unwinds it and it returns none. -/
inductive Outcome (α : Type) where
  | returned (value : α)
  | panicked
  deriving DecidableEq, Repr

/-- The outcome of `close`: the `Application` after the call, the calls made, and whether the
call ended in a panic instead of returning. -/
structure CloseResult where
  app : Application
  trace : List Event
  panicked : Bool
  deriving DecidableEq, Repr

/-- The method `close` (lines 47-49): one call, `app.pool.Close()`.  The call is entered
whatever the receiver is; on the nil pointer `pgxpool.Pool.Close` dereferences nil and panics,
and `close`, which does not recover, panics with it. -/
def Application.close (app : Application) : CloseResult :=
  match app.pool with
  | some p => { app := app, trace := [.poolClose (some p)], panicked := false }
  | none => { app := app, trace := [.poolClose none], panicked := true }

/-- The outcome of `Start`: the `Application` after the call, the calls made in order, and the
value returned, or the panic that took the place of the return. -/
structure StartResult where
  app : Application
  trace : List Event
  result : Outcome GoError
  deriving DecidableEq, Repr

/-- The method `Start` (lines 41-45).  `defer app.close()` registers `close`; the body logs and
evaluates `http.ListenAndServe(app.addr, app.handler)` into the result; the deferred call then
runs.  When it returns, `Start` returns the result; when it panics, `Start` has no recover and
panics too, and the result is lost. -/
def Application.Start (rt : Runtime) (app : Application) : StartResult :=
  let deferred : Application → CloseResult := Application.close
  let logged : List Event := [.logInfo ("Server listening on port " ++ app.addr)]
  let err := rt.ListenAndServe app.addr app.handler
  let served : List Event := logged ++ [.listenAndServe app.addr app.handler err]
  let closed := deferred app
  { app := closed.app, trace := served ++ closed.trace
    result := if closed.panicked then .panicked else .returned err }

/-! ## Vocabulary of the specification -/

/-- A resource handle an `Application` can hold. -/
inductive Resource where
  | pool (id : Nat)
  | writer (id : Nat)
  deriving DecidableEq, Repr

/-- The resource set of an `Application`: the handles that are present (non-nil). -/
def Application.resources (app : Application) : List Resource :=
  (app.producer.map Resource.writer).toList ++ (app.pool.map Resource.pool).toList

/-- The handles a trace releases. -/
def released : List Event → List Resource
  | [] => []
  | .poolClose (some p) :: t => Resource.pool p :: released t
  | .producerClose (some w) :: t => Resource.writer w :: released t
  | _ :: t => released t

/-- The handles of an `Application` that a trace leaves unreleased. -/
def unreleased (app : Application) (trace : List Event) : List Resource :=
  app.resources.filter (fun r => !(released trace).contains r)

/-! ## Concrete inputs -/

/-- An `Application` holding a pool (address 1) and a queue writer (address 2). -/
def appWithWriter : Application :=
  { pool := some 1, producer := some 2, handler := some 3, addr := ":8080" }

/-- The zero value `Application{}`: every field nil or empty. -/
def zeroApplication : Application :=
  { pool := none, producer := none, handler := none, addr := "" }

/-- A listener whose bind fails at once. -/
def bindFails : Runtime :=
  { ListenAndServe := fun _ _ => some "listen tcp :8080: bind: address already in use" }

/-- A configuration with port 8080, a database section and a message-queue endpoint. -/
def sampleSettings : Settings String (Option String) :=
  { Application := { Port := 8080 }, Database := "postgres://db", Rest := some "kafka:9092" }

/-- Collaborators whose provisioning returns the pool at address 7 and whose handler
constructor returns the handler at address 11. -/
def goodCollaborators : Collaborators String (Option String) :=
  { GetDbConnectionPool := fun _ => .ok (some 7), CreateHandler := fun _ _ => some 11 }

/-- The Application that `Build` returns for `sampleSettings` with `goodCollaborators`. -/
def builtSample : Application :=
  { pool := some 7, producer := none, handler := some 11, addr := ":8080" }

/-- Collaborators whose provisioning fails. -/
def failingCollaborators : Collaborators String (Option String) :=
  { GetDbConnectionPool := fun _ => .error "missing database parameters"
    CreateHandler := fun _ _ => some 11 }

/-! ## Helper lemmas -/

theorem formatInt_eq_toString (n : Int) : formatInt n = toString n := by
  unfold formatInt
  cases n with
  | ofNat m =>
    have h : ¬ (Int.ofNat m < 0) := by simp
    rw [if_neg h]; rfl
  | negSucc m =>
    have h : Int.negSucc m < 0 := Int.negSucc_lt_zero m
    rw [if_pos h]; rfl

theorem close_trace_eq (app : Application) :
    app.close.trace = [Event.poolClose app.pool] := by
  unfold Application.close
  cases h : app.pool <;> rfl

theorem close_app_eq (app : Application) : app.close.app = app := by
  unfold Application.close
  cases h : app.pool <;> rfl

theorem close_panicked_eq (app : Application) : app.close.panicked = app.pool.isNone := by
  unfold Application.close
  cases h : app.pool <;> rfl

theorem Start_trace (rt : Runtime) (app : Application) :
    (app.Start rt).trace =
      [Event.logInfo ("Server listening on port " ++ app.addr),
       Event.listenAndServe app.addr app.handler (rt.ListenAndServe app.addr app.handler),
       Event.poolClose app.pool] := by
  unfold Application.Start
  simp only [close_trace_eq]
  rfl

theorem Start_app (rt : Runtime) (app : Application) : (app.Start rt).app = app := by
  unfold Application.Start
  simp only [close_app_eq]

theorem Start_result (rt : Runtime) (app : Application) :
    (app.Start rt).result =
      if app.pool.isNone then Outcome.panicked
      else Outcome.returned (rt.ListenAndServe app.addr app.handler) := by
  unfold Application.Start
  simp only [close_panicked_eq]

theorem Build_ok_iff {DB Rest : Type} (c : Collaborators DB Rest) (s : Settings DB Rest)
    (app : Application) :
    (Build c s).result = .ok app ↔
      ∃ pool, c.GetDbConnectionPool s.Database = .ok pool ∧
        app = { addr := ":" ++ formatInt s.Application.Port, pool := pool,
                handler := c.CreateHandler s { Pool := pool }, producer := none } := by
  unfold Build
  cases h : c.GetDbConnectionPool s.Database with
  | error e => simp
  | ok pool =>
    simp only [Except.ok.injEq, exists_eq_left']
    exact eq_comm

theorem Build_trace_ok {DB Rest : Type} (c : Collaborators DB Rest) (s : Settings DB Rest)
    (pool : PoolRef) (h : c.GetDbConnectionPool s.Database = .ok pool) :
    (Build c s).trace =
      [BuildEvent.getDbConnectionPool s.Database, BuildEvent.createHandler s { Pool := pool }] := by
  unfold Build
  rw [h]

theorem Build_error {DB Rest : Type} (c : Collaborators DB Rest) (s : Settings DB Rest)
    (e : Failure) (h : c.GetDbConnectionPool s.Database = .error e) :
    Build c s = { trace := [BuildEvent.getDbConnectionPool s.Database], result := .error e } := by
  unfold Build
  rw [h]

theorem Build_sample : (Build goodCollaborators sampleSettings).result = .ok builtSample := by
  rw [Build_ok_iff]
  exact ⟨some 7, rfl, by decide⟩

/-! ## Serving: `Start` -/

/-- Claim C1: for every Application and every outcome of the listener call, the trace of one
execution of `Start` holds exactly one pool release, the release of the Application's own
pool: never none and never two. -/
theorem Start_releases_pool_exactly_once (rt : Runtime) (app : Application) :
    (app.Start rt).trace.countP Event.isPoolClose = 1 ∧
    (app.Start rt).trace.filter Event.isPoolClose = [Event.poolClose app.pool] ∧
    (app.Start rt).trace.count (Event.poolClose app.pool) = 1 := by
  rw [Start_trace]
  refine ⟨?_, ?_, ?_⟩
  · simp [Event.isPoolClose]
  · simp [Event.isPoolClose]
  · simp

/-- Claim C2, as stated, fails: on the zero-value Application, whose pool is nil, the listener
returns a bind error but `Start` does not return it: the deferred `close` panics. -/
theorem Start_panics_on_nil_pool :
    zeroApplication.pool = none ∧
    bindFails.ListenAndServe zeroApplication.addr zeroApplication.handler =
      some "listen tcp :8080: bind: address already in use" ∧
    (zeroApplication.Start bindFails).result = Outcome.panicked ∧
    (zeroApplication.Start bindFails).result ≠
      Outcome.returned (bindFails.ListenAndServe zeroApplication.addr zeroApplication.handler) := by
  refine ⟨rfl, rfl, rfl, ?_⟩
  decide

/-- Claim C2, amended: for every Application whose pool is not nil and every listener, `Start`
returns exactly the value the listener returned for the stored address and handler: a non-nil
error unchanged, nil as nil; running `close` does not alter it. -/
theorem Start_returns_listener_error (rt : Runtime) (app : Application)
    (hpool : app.pool ≠ none) :
    (app.Start rt).result = Outcome.returned (rt.ListenAndServe app.addr app.handler) ∧
    (∀ msg, rt.ListenAndServe app.addr app.handler = some msg →
      (app.Start rt).result = Outcome.returned (some msg)) ∧
    (rt.ListenAndServe app.addr app.handler = none →
      (app.Start rt).result = Outcome.returned none) := by
  have hres : (app.Start rt).result =
      Outcome.returned (rt.ListenAndServe app.addr app.handler) := by
    rw [Start_result]
    cases h : app.pool with
    | none => exact absurd h hpool
    | some p => rfl
  refine ⟨hres, ?_, ?_⟩
  · intro msg h
    rw [hres, h]
  · intro h
    rw [hres, h]

/-- The amended statement of C2 at an Application with the pool 7 and a listener whose bind
fails: `Start` returns the bind error. -/
theorem Start_returns_listener_error_witness :
    builtSample.pool ≠ none ∧
    (builtSample.Start bindFails).result =
      Outcome.returned (some "listen tcp :8080: bind: address already in use") :=
  ⟨by decide, (Start_returns_listener_error bindFails builtSample (by decide)).1⟩

/-- Claim C7: in the trace of one `Start` call the pool release is the last effect, and it
comes after the completed listener call: every listener event has a smaller position than
every pool release, and no event at all has a larger position than a pool release. -/
theorem Start_teardown_follows_serving (rt : Runtime) (app : Application) :
    (app.Start rt).trace.getLast? = some (Event.poolClose app.pool) ∧
    (∀ (i j : Nat) (evL evC : Event), (app.Start rt).trace[i]? = some evL → evL.isListen = true →
      (app.Start rt).trace[j]? = some evC → evC.isPoolClose = true → i < j) ∧
    (∀ (j k : Nat) (evC ev : Event), (app.Start rt).trace[j]? = some evC → evC.isPoolClose = true →
      (app.Start rt).trace[k]? = some ev → k ≤ j) ∧
    (∃ i : Nat, (app.Start rt).trace[i]? =
      some (Event.listenAndServe app.addr app.handler (rt.ListenAndServe app.addr app.handler))) := by
  rw [Start_trace]
  refine ⟨rfl, ?_, ?_, ⟨1, by simp⟩⟩
  · intro i j evL evC hi hL hj hC
    match i, j with
    | 0, _ => simp at hi; subst hi; simp [Event.isListen] at hL
    | 1, 0 => simp at hj; subst hj; simp [Event.isPoolClose] at hC
    | 1, 1 => simp at hj; subst hj; simp [Event.isPoolClose] at hC
    | 1, (j + 2) => omega
    | 2, _ => simp at hi; subst hi; simp [Event.isListen] at hL
    | (i + 3), _ => simp at hi
  · intro j k evC ev hj hC hk
    match j, k with
    | 0, _ => simp at hj; subst hj; simp [Event.isPoolClose] at hC
    | 1, _ => simp at hj; subst hj; simp [Event.isPoolClose] at hC
    | 2, 0 => omega
    | 2, 1 => omega
    | 2, 2 => omega
    | 2, (k + 3) => simp at hk
    | (j + 3), _ => simp at hj

/-- Claim C9: `Start` calls the listener exactly once, with the stored address and the stored
handler, and leaves the Application as it was; so on an Application returned by `Build` for a
configuration with port `p` it listens on `":" ++ p` with the handler `Build` constructed. -/
theorem Start_listens_once_on_stored_addr {DB Rest : Type} (rt : Runtime) (app : Application)
    (c : Collaborators DB Rest) (s : Settings DB Rest) :
    (app.Start rt).trace.filter Event.isListen =
      [Event.listenAndServe app.addr app.handler (rt.ListenAndServe app.addr app.handler)] ∧
    (app.Start rt).trace.countP Event.isListen = 1 ∧
    (app.Start rt).app = app ∧
    (∀ built pool, (Build c s).result = .ok built →
      c.GetDbConnectionPool s.Database = .ok pool →
      (built.Start rt).trace.filter Event.isListen =
        [Event.listenAndServe (":" ++ formatInt s.Application.Port)
          (c.CreateHandler s { Pool := pool })
          (rt.ListenAndServe (":" ++ formatInt s.Application.Port)
            (c.CreateHandler s { Pool := pool }))]) := by
  refine ⟨?_, ?_, Start_app rt app, ?_⟩
  · rw [Start_trace]; simp [Event.isListen]
  · rw [Start_trace]; simp [Event.isListen]
  · intro built pool hb hp
    obtain ⟨pool2, hp2, rfl⟩ := (Build_ok_iff c s built).mp hb
    rw [hp] at hp2
    cases hp2
    rw [Start_trace]; simp [Event.isListen]

/-- The statement of C9 at a concrete configuration: `Build` does return, and `Start` on its
result listens once, on `":8080"`, with the handler at address 11. -/
theorem Start_listens_once_on_stored_addr_witness :
    (Build goodCollaborators sampleSettings).result =
      .ok builtSample ∧
    (Application.Start bindFails builtSample).trace.filter
        Event.isListen =
      [Event.listenAndServe ":8080" (some 11)
        (some "listen tcp :8080: bind: address already in use")] :=
  ⟨Build_sample,
   (Start_listens_once_on_stored_addr bindFails appWithWriter goodCollaborators
      sampleSettings).2.2.2 _ (some 7) Build_sample rfl⟩

/-! ## Construction: `Build` -/

/-- Claim C5: the Application `Build` returns for a configuration with port `p` has the address
`":"` followed by `p` in base 10 (`":8080"` for 8080, `":0"` for 0), and any other `Build`,
for whatever configuration and collaborators, with the same port returns the same address. -/
theorem Build_addr_is_colon_port {DB Rest : Type} (c : Collaborators DB Rest)
    (s : Settings DB Rest) (app : Application) (h : (Build c s).result = .ok app) :
    app.addr = ":" ++ formatInt s.Application.Port ∧
    app.addr = ":" ++ toString s.Application.Port ∧
    (s.Application.Port = 8080 → app.addr = ":8080") ∧
    (s.Application.Port = 0 → app.addr = ":0") ∧
    (∀ (DB2 Rest2 : Type) (c2 : Collaborators DB2 Rest2) (s2 : Settings DB2 Rest2)
        (app2 : Application), (Build c2 s2).result = .ok app2 →
        s2.Application.Port = s.Application.Port → app2.addr = app.addr) := by
  obtain ⟨pool, -, rfl⟩ := (Build_ok_iff c s app).mp h
  refine ⟨rfl, ?_, ?_, ?_, ?_⟩
  · simp only [formatInt_eq_toString]
  · intro hp
    simp only [hp]
    decide
  · intro hp
    simp only [hp]
    decide
  · intro DB2 Rest2 c2 s2 app2 h2 hp
    obtain ⟨pool2, -, rfl⟩ := (Build_ok_iff c2 s2 app2).mp h2
    simp only [hp]

/-- The statement of C5 at port 8080: `Build` returns, and the address is `":8080"`. -/
theorem Build_addr_is_colon_port_witness :
    (Build goodCollaborators sampleSettings).result =
      .ok builtSample ∧
    (":8080" : String) = ":" ++ formatInt sampleSettings.Application.Port :=
  ⟨Build_sample,
   (Build_addr_is_colon_port goodCollaborators sampleSettings builtSample Build_sample).1⟩

/-- Claim C6: `Build` fails exactly when provisioning fails, with the provisioner's failure
unchanged; in that case the provisioner is the only collaborator called (the handler
constructor is not invoked) and no Application is returned. -/
theorem Build_fails_iff_provisioning_fails {DB Rest : Type} (c : Collaborators DB Rest)
    (s : Settings DB Rest) :
    (∀ e, (Build c s).result = .error e ↔ c.GetDbConnectionPool s.Database = .error e) ∧
    (∀ e, c.GetDbConnectionPool s.Database = .error e →
      (Build c s).trace.countP BuildEvent.isCreateHandler = 0 ∧
      (Build c s).trace = [BuildEvent.getDbConnectionPool s.Database] ∧
      ∀ app, (Build c s).result ≠ .ok app) := by
  refine ⟨?_, ?_⟩
  · intro e
    unfold Build
    cases h : c.GetDbConnectionPool s.Database with
    | error e2 => simp
    | ok pool => simp
  · intro e h
    rw [Build_error c s e h]
    refine ⟨by simp [BuildEvent.isCreateHandler], rfl, ?_⟩
    intro app
    simp

/-- The statement of C6 at a provisioner that fails on missing database parameters. -/
theorem Build_fails_iff_provisioning_fails_witness :
    failingCollaborators.GetDbConnectionPool sampleSettings.Database =
      .error "missing database parameters" ∧
    (Build failingCollaborators sampleSettings).result = .error "missing database parameters" ∧
    (Build failingCollaborators sampleSettings).trace.countP BuildEvent.isCreateHandler = 0 :=
  ⟨rfl,
   ((Build_fails_iff_provisioning_fails failingCollaborators sampleSettings).1 _).mpr rfl,
   ((Build_fails_iff_provisioning_fails failingCollaborators sampleSettings).2 _ rfl).1⟩

/-- Claim C8: when `Build` returns an Application for the configuration `s`, it has called the
provisioner once, on `s.Database`, and the pool that call returned is the pool stored in the
Application, the pool in the environment handed to the handler constructor (called once, with
`s`), whose result is the stored handler, and the pool that `close` releases. -/
theorem Build_bundles_provisioned_pool {DB Rest : Type} (c : Collaborators DB Rest)
    (s : Settings DB Rest) (app : Application) (h : (Build c s).result = .ok app) :
    c.GetDbConnectionPool s.Database = .ok app.pool ∧
    (Build c s).trace =
      [BuildEvent.getDbConnectionPool s.Database,
       BuildEvent.createHandler s { Pool := app.pool }] ∧
    (Build c s).trace.countP BuildEvent.isProvision = 1 ∧
    (Build c s).trace.countP BuildEvent.isCreateHandler = 1 ∧
    app.handler = c.CreateHandler s { Pool := app.pool } ∧
    app.close.trace = [Event.poolClose app.pool] := by
  obtain ⟨pool, hp, rfl⟩ := (Build_ok_iff c s app).mp h
  rw [Build_trace_ok c s pool hp]
  refine ⟨hp, rfl, ?_, ?_, rfl, close_trace_eq _⟩
  · simp [BuildEvent.isProvision]
  · simp [BuildEvent.isCreateHandler]

/-- The statement of C8 at a concrete configuration: the pool at address 7 is provisioned,
stored and later released. -/
theorem Build_bundles_provisioned_pool_witness :
    (Build goodCollaborators sampleSettings).result =
      .ok builtSample ∧
    Application.close builtSample
      = { app := builtSample
          trace := [Event.poolClose (some 7)]
          panicked := false } ∧
    goodCollaborators.GetDbConnectionPool sampleSettings.Database = .ok (some 7) :=
  ⟨Build_sample, rfl,
   (Build_bundles_provisioned_pool goodCollaborators sampleSettings builtSample Build_sample).1⟩

/-- Claim C10: an Application returned by `Build`, for any configuration (whatever else it
configures), has a nil producer; the pool is the only resource it can hold, and the one pool
release of `close` leaves none of its handles unreleased. -/
theorem Build_leaves_producer_nil {DB Rest : Type} (c : Collaborators DB Rest)
    (s : Settings DB Rest) (app : Application) (h : (Build c s).result = .ok app) :
    app.producer = none ∧
    app.resources = (app.pool.map Resource.pool).toList ∧
    app.close.trace.countP Event.isPoolClose = 1 ∧
    released app.close.trace = app.resources ∧
    unreleased app app.close.trace = [] := by
  obtain ⟨pool, -, rfl⟩ := (Build_ok_iff c s app).mp h
  cases pool <;>
    simp [Application.resources, Application.close, Event.isPoolClose, released, unreleased]

/-- The statement of C10 at a configuration with a message-queue endpoint. -/
theorem Build_leaves_producer_nil_witness :
    sampleSettings.Rest = some "kafka:9092" ∧
    (Build goodCollaborators sampleSettings).result =
      .ok builtSample ∧
    unreleased builtSample
      (Application.close builtSample).trace = [] :=
  ⟨rfl, Build_sample,
   (Build_leaves_producer_nil goodCollaborators sampleSettings builtSample
      Build_sample).2.2.2.2⟩

/-! ## Teardown: `close` -/

/-- Claim C3, as stated, fails: on an Application holding the pool 1 and the queue writer 2,
`close` releases the pool but not the writer, which is left unreleased. -/
theorem close_leaves_producer_unreleased :
    appWithWriter.pool = some 1 ∧ appWithWriter.producer = some 2 ∧
    Resource.pool 1 ∈ released appWithWriter.close.trace ∧
    Resource.writer 2 ∉ released appWithWriter.close.trace ∧
    unreleased appWithWriter appWithWriter.close.trace = [Resource.writer 2] ∧
    ¬ ((∀ p, appWithWriter.pool = some p →
          Resource.pool p ∈ released appWithWriter.close.trace) ∧
       (∀ w, appWithWriter.producer = some w →
          Resource.writer w ∈ released appWithWriter.close.trace) ∧
       unreleased appWithWriter appWithWriter.close.trace = []) := by
  refine ⟨rfl, rfl, by decide, by decide, by decide, ?_⟩
  intro h
  exact absurd (h.2.1 2 rfl) (by decide)

/-- Claim C3, amended: for every Application, `close` releases the pool whenever it is present
and releases nothing else; it never releases the queue writer, so the handles left unreleased
after `close` are exactly the producer, when one is present. -/
theorem close_releases_pool_only (app : Application) :
    (∀ p, app.pool = some p → Resource.pool p ∈ released app.close.trace) ∧
    released app.close.trace = (app.pool.map Resource.pool).toList ∧
    (∀ w, Resource.writer w ∉ released app.close.trace) ∧
    unreleased app app.close.trace = (app.producer.map Resource.writer).toList := by
  obtain ⟨pool, producer, handler, addr⟩ := app
  cases pool <;> cases producer <;>
    simp [Application.resources, Application.close, released, unreleased]

/-- Claim C4, as stated, fails: on an Application holding the pool 1 and the queue writer 2,
the trace of `close` is the pool release alone; no release of the writer occurs in it, hence
none before the pool release. -/
theorem close_has_no_writer_release :
    appWithWriter.pool = some 1 ∧ appWithWriter.producer = some 2 ∧
    appWithWriter.close.trace = [Event.poolClose (some 1)] ∧
    Event.producerClose (some 2) ∉ appWithWriter.close.trace ∧
    ¬ ∃ i j : Nat, appWithWriter.close.trace[i]? = some (Event.producerClose (some 2)) ∧
        appWithWriter.close.trace[j]? = some (Event.poolClose (some 1)) ∧ i < j := by
  refine ⟨rfl, rfl, rfl, by decide, ?_⟩
  rintro ⟨i, j, hi, -, -⟩
  have hmem : Event.producerClose (some 2) ∈ appWithWriter.close.trace :=
    List.getElem?_mem hi
  exact absurd hmem (by decide)

/-- Claim C4, amended: for every Application that holds both a queue writer and a database
pool, the trace of `close` consists of the pool release alone: no writer release occurs in it,
before or after the pool release, and the only handle released is the pool. -/
theorem close_trace_is_pool_release_alone (app : Application) (p w : Nat)
    (hp : app.pool = some p) (hw : app.producer = some w) :
    app.close.trace = [Event.poolClose (some p)] ∧
    app.close.trace.countP Event.isProducerClose = 0 ∧
    (∀ r, Event.producerClose r ∉ app.close.trace) ∧
    released app.close.trace = [Resource.pool p] ∧
    unreleased app app.close.trace = [Resource.writer w] := by
  obtain ⟨pool, producer, handler, addr⟩ := app
  simp only at hp hw
  subst hp hw
  simp [Application.resources, Application.close, released, unreleased,
    Event.isProducerClose]

/-- The amended statement of C4 at the Application holding the pool 1 and the writer 2. -/
theorem close_trace_is_pool_release_alone_witness :
    appWithWriter.pool = some 1 ∧ appWithWriter.producer = some 2 ∧
    appWithWriter.close.trace.countP Event.isProducerClose = 0 :=
  ⟨rfl, rfl, (close_trace_is_pool_release_alone appWithWriter 1 2 rfl rfl).2.1⟩

end application
